import Mathlib

/-!
Verification of the profile-context resolution and activation-status
subsystem of the PPC Prophet MCP server (a TypeScript codebase).

The TypeScript source is shallowly embedded: each handler becomes a pure
Lean function of its inputs, with every backend HTTP interaction passed
in explicitly as an `ApiResponse` value (or, for the POST issued by the
activate handler, as a function from the posted `profile_id` to the
backend's response).  The working-context file is modelled as an explicit
store state threaded through the handlers.  JavaScript-specific behaviour
(`parseInt`, `String.replace('#','')`, truthiness of optional numeric
fields, template-literal interpolation of `null`/`undefined`) is modelled
by small helper functions named `js...`.
-/

namespace PPCProphet

/-- JavaScript whitespace characters recognised by `parseInt` (the subset
relevant to this development). -/
def jsIsSpace (c : Char) : Bool :=
  c = ' ' || c = '\t' || c = '\n' || c = '\r'

/-- Value of a decimal digit character. -/
def digitVal (c : Char) : Nat :=
  c.toNat - '0'.toNat

/-- Accumulate a decimal digit list into a natural number, most
significant digit first (as `parseInt` does). -/
def digitsToNat (ds : List Char) : Nat :=
  ds.foldl (fun a c => 10 * a + digitVal c) 0

/-- Core of JavaScript `parseInt(s, 10)` on a character list: skip
leading whitespace, read an optional sign, then the longest prefix of
decimal digits; `none` models the `NaN` result when no digit is found. -/
def jsParseIntList (cs : List Char) : Option Int :=
  let cs₁ := cs.dropWhile jsIsSpace
  match cs₁ with
  | '-' :: rest =>
      let ds := rest.takeWhile Char.isDigit
      if ds.isEmpty then none else some (-(digitsToNat ds : Int))
  | '+' :: rest =>
      let ds := rest.takeWhile Char.isDigit
      if ds.isEmpty then none else some (digitsToNat ds : Int)
  | _ =>
      let ds := cs₁.takeWhile Char.isDigit
      if ds.isEmpty then none else some (digitsToNat ds : Int)

/-- JavaScript `parseInt(s, 10)`; `none` models `NaN`. -/
def jsParseInt (s : String) : Option Int :=
  jsParseIntList s.data

/-- Remove the first occurrence of `'#'` from a character list — the
list-level core of `String(input).replace('#', '')`. -/
def removeFirstHashList : List Char → List Char
  | [] => []
  | c :: cs => if c = '#' then cs else c :: removeFirstHashList cs

/-- JavaScript `s.replace('#', '')`: removes the first `'#'` only. -/
def jsReplaceFirstHash (s : String) : String :=
  String.mk (removeFirstHashList s.data)

/-- Template-literal interpolation of an optional string field: an absent
value prints as the text of JavaScript `null`/`undefined`.  The source
only interpolates `mcp_data_status` (typed `... | null`) and `message`
this way, so a single placeholder text is used for the absent case. -/
def jsShowOptString : Option String → String
  | some s => s
  | none => "null"

/-- JavaScript truthiness of an optional numeric field
(`estimated_minutes`): absent, `null` and `0` are falsy. -/
def jsTruthyNum : Option Int → Bool
  | some n => n ≠ 0
  | none => false

/-- JavaScript truthiness of an optional boolean field
(`data_not_ready`). -/
def jsTruthyBool : Option Bool → Bool
  | some b => b
  | none => false

/-- `data?.status || 'pending'`: optional chaining followed by a
falsy-default (the empty string is falsy). -/
def jsStatusOrPending : Option String → String
  | some s => if s = "" then "pending" else s
  | none => "pending"

/-- The `ApiResponse<T>` envelope returned by the transport client
(`api-client.ts`).  `data_not_ready`, `status` and `estimated_minutes`
are the "MCP data availability fields" declared on the interface. -/
structure ApiResponse (α : Type) where
  success : Bool
  data : Option α := none
  error : Option String := none
  message : Option String := none
  data_not_ready : Option Bool := none
  status : Option String := none
  estimated_minutes : Option Int := none
deriving Repr, DecidableEq

/-- An entry of the `/v1/mcp/profiles` listing (`McpProfile` in
`types.ts`).  Fields not read by the handlers under verification are
omitted. -/
structure McpProfile where
  number : Int
  id : String
  name : String
  region : String
  mcp_activated : Bool
  mcp_data_status : Option String := none
  is_ready : Bool := false
  estimated_minutes : Option Int := none
deriving Repr, DecidableEq

/-- The `/v1/mcp/profiles` response body (`McpProfilesResponse`). -/
structure McpProfilesResponse where
  profiles : List McpProfile
  count : Int
deriving Repr, DecidableEq

/-- The `/v1/mcp/profiles/activate` response body
(`McpActivateResponse`). -/
structure McpActivateResponse where
  profile_id : String
  status : String
  estimated_minutes : Option Int := none
deriving Repr, DecidableEq

/-- The argument of `resolveProfileId`, typed `string | number` in the
source. -/
inductive ProfileRef where
  | num (n : Int)
  | str (s : String)
deriving Repr, DecidableEq

/-- JavaScript `String(input)` on a `string | number` value. -/
def refToString : ProfileRef → String
  | .num n => toString n
  | .str s => s

/-- The optional-integer reading of the input:
`typeof input === 'number' ? input : parseInt(String(input).replace('#',''), 10)`,
with `none` for `NaN`. -/
def refToNum : ProfileRef → Option Int
  | .num n => some n
  | .str s => jsParseInt (jsReplaceFirstHash s)

/-- The triple returned by `resolveProfileId`. -/
structure ResolvedProfile where
  id : String
  name : String
  region : String
deriving Repr, DecidableEq

/-- `resolveProfileId` (index.ts): if the input reads as a number, fetch
the profile listing (passed here as `fetch`) and look the number up;
a failed fetch yields `null`; a successful lookup yields the profile's
triple; otherwise control falls through to the final
"assume it's already a hash" return of the stringified input. -/
def resolveProfileId (input : ProfileRef) (fetch : ApiResponse McpProfilesResponse) :
    Option ResolvedProfile :=
  match refToNum input with
  | some n =>
      if fetch.success then
        match fetch.data with
        | some d =>
            match d.profiles.find? (fun p => p.number == n) with
            | some p => some ⟨p.id, p.name, p.region⟩
            | none => some ⟨refToString input, "", ""⟩
        | none => none
      else none
  | none => some ⟨refToString input, "", ""⟩

/-! ## Working-Context Store (index.ts: readContext / writeContext) -/

/-- The `ProfileContext` record persisted by the store. -/
structure ProfileContext where
  profileId : String
  profileNumber : Int
  profileName : String
  region : String
  setAt : String
deriving Repr, DecidableEq

/-- A JSON tree.  `JSON.stringify`/`JSON.parse` round-trip a tree of this
shape through text; the byte-level serialisation is the JavaScript
runtime's concern, so the store is modelled at the tree level. -/
inductive Json where
  | str (s : String)
  | num (n : Int)
  | bool (b : Bool)
  | null
  | arr (xs : List Json)
  | obj (fields : List (String × Json))

/-- State of the context file `~/.ppc-prophet/context.json`: absent,
present but unreadable or not valid JSON (so that `readFileSync` or
`JSON.parse` throws), or present with a parsed JSON value. -/
inductive StoreState where
  | missing
  | corrupt
  | stored (j : Json)

/-- The object written by `writeContext` via
`JSON.stringify(context, null, 2)`: the five fields of the record. -/
def encodeContext (c : ProfileContext) : Json :=
  .obj [("profileId", .str c.profileId),
        ("profileNumber", .num c.profileNumber),
        ("profileName", .str c.profileName),
        ("region", .str c.region),
        ("setAt", .str c.setAt)]

/-- Body of `readContext` before its `catch`: a missing file returns
`null`; an unreadable or unparseable file throws; otherwise the parsed
JSON value is returned (the `as ProfileContext` cast in the source is
unchecked, so the runtime value is the parsed tree itself). -/
def readContextBody : StoreState → Except String (Option Json)
  | .missing => .ok none
  | .corrupt => .error "Failed to read context file"
  | .stored j => .ok (some j)

/-- `readContext` (index.ts): the body wrapped in `try`/`catch`; the
`catch` logs and returns `null`. -/
def readContext (s : StoreState) : Option Json :=
  match readContextBody s with
  | .ok v => v
  | .error _ => none

/-- A successful `writeContext` (index.ts): overwrites the file with the
serialised record, whatever was there before. -/
def writeContext (c : ProfileContext) (_s : StoreState) : StoreState :=
  .stored (encodeContext c)

/-- Look a key up in a JSON object's field list (first match, as
JavaScript property access on a parsed object). -/
def jsonLookup (fields : List (String × Json)) (k : String) : Option Json :=
  (fields.find? (fun kv => kv.1 == k)).map (fun kv => kv.2)

/-- Read a JSON value as a string field. -/
def jsonAsString : Json → Option String
  | .str s => some s
  | _ => none

/-- Read a JSON value as a numeric field. -/
def jsonAsNum : Json → Option Int
  | .num n => some n
  | _ => none

/-- Interpret a stored JSON value as a `ProfileContext` by reading the
five fields the consumers of `readContext` access; unknown extra fields
are ignored. -/
def decodeContext : Json → Option ProfileContext
  | .obj fs =>
      match (jsonLookup fs "profileId").bind jsonAsString,
            (jsonLookup fs "profileNumber").bind jsonAsNum,
            (jsonLookup fs "profileName").bind jsonAsString,
            (jsonLookup fs "region").bind jsonAsString,
            (jsonLookup fs "setAt").bind jsonAsString with
      | some pid, some pnum, some pname, some reg, some sat =>
          some ⟨pid, pnum, pname, reg, sat⟩
      | _, _, _, _, _ => none
  | _ => none

/-! ## set_current_profile (index.ts, `case 'set_current_profile'`) -/

/-- The backend interactions of one `set_current_profile` invocation:
the listing fetched inside `resolveProfileId`, the second listing fetch
made by the handler itself, and the `new Date().toISOString()` value. -/
structure SetProfileEnv where
  resolveFetch : ApiResponse McpProfilesResponse
  listFetch : ApiResponse McpProfilesResponse
  now : String

/-- Outcome of `set_current_profile`: the text returned to the caller,
whether `writeContext` was invoked, and the resulting store state. -/
structure SetProfileResult where
  text : String
  wrote : Bool
  store : StoreState

/-- The not-activated error text (index.ts line 998). -/
def notActivatedText (p : McpProfile) : String :=
  "Error: Profile **" ++ (p.name ++ ("** (#" ++ (toString p.number ++
    ") is not activated for MCP access.\n\nPlease activate it first using: activate_mcp_profile")))

/-- The still-importing warning text (index.ts line 1007). -/
def stillImportingText (p : McpProfile) : String :=
  "Warning: Profile **" ++ (p.name ++ ("** (#" ++ (toString p.number ++
    (") is activated but data is still importing (status: " ++
      (jsShowOptString p.mcp_data_status ++
        ").\n\nYou can set it as current, but queries may return limited data until import completes.")))))

/-- The success text (index.ts line 1026). -/
def profileSetText (p : McpProfile) : String :=
  "✓ Current working profile set to: **" ++ (p.name ++ ("** (#" ++
    (toString p.number ++ (") - " ++ (p.region ++
      "\n\nAll subsequent commands will use this profile automatically.")))))

/-- `set_current_profile` (index.ts lines 973–1029): resolve the input,
re-fetch the listing, find the resolved profile by id, refuse a
non-activated profile, return a warning for an activated but not-ready
profile, and otherwise persist the context and report success.  Note the
warning branch returns before `writeContext` is reached. -/
def set_current_profile (profileInput : String) (env : SetProfileEnv)
    (store₀ : StoreState) : SetProfileResult :=
  match resolveProfileId (.str profileInput) env.resolveFetch with
  | none =>
      ⟨"Error: Could not resolve profile \"" ++ profileInput ++ "\"", false, store₀⟩
  | some resolved =>
      if env.listFetch.success then
        match env.listFetch.data with
        | none => ⟨"Error: Failed to fetch profile list", false, store₀⟩
        | some d =>
            match d.profiles.find? (fun p => p.id == resolved.id) with
            | none => ⟨"Error: Profile not found in your account", false, store₀⟩
            | some p =>
                if ¬ p.mcp_activated then
                  ⟨notActivatedText p, false, store₀⟩
                else if p.mcp_data_status ≠ some "ready" then
                  ⟨stillImportingText p, false, store₀⟩
                else
                  let context : ProfileContext :=
                    ⟨p.id, p.number, p.name, p.region, env.now⟩
                  ⟨profileSetText p, true, writeContext context store₀⟩
      else ⟨"Error: Failed to fetch profile list", false, store₀⟩

/-! ## activate_mcp_profile (index.ts, `case 'activate_mcp_profile'`) -/

/-- Outcome of `activate_mcp_profile`: which `profile_id` (if any) was
forwarded in the POST body to `/v1/mcp/profiles/activate`, and the text
returned to the caller. -/
structure ActivateResult where
  forwarded : Option String
  text : String
deriving Repr, DecidableEq

/-- Success text of `activate_mcp_profile` (index.ts lines 901–907). -/
def activatedText (p : McpProfile) (r : ApiResponse McpActivateResponse) : String :=
  "**Profile Activated for MCP Access**\n\n" ++
    "Profile: " ++ p.name ++ " (" ++ p.region ++ ")\n" ++
    "Status: " ++ jsStatusOrPending ((r.data).map (fun d => d.status)) ++ "\n" ++
    (match r.data with
     | some d =>
         if jsTruthyNum d.estimated_minutes then
           "Estimated time: ~" ++ toString (d.estimated_minutes.getD 0) ++ " minutes\n"
         else ""
     | none => "") ++
    "\nData import has started. Use `check_mcp_status` to monitor progress."

/-- `activate_mcp_profile` (index.ts lines 878–909): fetch the listing,
find the profile by its number, and — with no check of its activation
state — POST its id to the activate endpoint (`backend`), surfacing the
backend's error string or success payload in the returned text. -/
def activate_mcp_profile (profileNumber : Int)
    (listFetch : ApiResponse McpProfilesResponse)
    (backend : String → ApiResponse McpActivateResponse) : ActivateResult :=
  if listFetch.success then
    match listFetch.data with
    | none => ⟨none, "Error: " ++ listFetch.error.getD "Failed to fetch profiles"⟩
    | some d =>
        match d.profiles.find? (fun p => p.number == profileNumber) with
        | none =>
            ⟨none, "Error: Profile #" ++ toString profileNumber ++
              " not found. Use list_profiles to see available profiles."⟩
        | some p =>
            let r := backend p.id
            if r.success then ⟨some p.id, activatedText p r⟩
            else ⟨some p.id, "Error: " ++ r.error.getD "Failed to activate profile"⟩
  else ⟨none, "Error: " ++ listFetch.error.getD "Failed to fetch profiles"⟩

/-! ## Performance handlers and the not-ready response shape -/

/-- How a performance/campaign-fetching handler disposes of the backend
response: an early generic error return, an early not-ready return, or
proceeding to render the report from the payload (the report rendering
itself is floating-point text formatting, outside this model). -/
inductive PerfOutcome (α : Type) where
  | errorText (msg : String)
  | notReady (text : String)
  | report (d : α)
deriving Repr, DecidableEq

/-- Response disposal of the monolithic `get_performance` handler
(index.ts lines 723–731): the only early return is
`if (!response.success || !response.data)`, yielding the generic error
text — the `data_not_ready` field is never consulted. -/
def mono_get_performance (r : ApiResponse α) : PerfOutcome α :=
  if r.success then
    match r.data with
    | some d => .report d
    | none => .errorText ("Error: " ++ r.error.getD "Failed to fetch performance")
  else .errorText ("Error: " ++ r.error.getD "Failed to fetch performance")

/-- Response disposal of the monolithic `get_campaign_performance`
handler (index.ts lines 784–799): same shape as `mono_get_performance`,
again with no `data_not_ready` check. -/
def mono_get_campaign_performance (r : ApiResponse α) : PerfOutcome α :=
  if r.success then
    match r.data with
    | some d => .report d
    | none => .errorText ("Error: " ++ r.error.getD "Failed to fetch campaign performance")
  else .errorText ("Error: " ++ r.error.getD "Failed to fetch campaign performance")

/-- The estimate line of the modular not-ready rendering
(`reports.ts` lines 39–41). -/
def estimatedTimeLine (est : Option Int) : String :=
  if jsTruthyNum est then
    "Estimated time: ~" ++ toString (est.getD 0) ++ " minutes."
  else "Please try again later."

/-- The not-ready text of the modular rendering (`reports.ts` line 46). -/
def dataNotReadyText (r : ApiResponse α) : String :=
  "**Data Not Yet Available**\n\n" ++ jsShowOptString r.message ++ "\n\n" ++
    estimatedTimeLine r.estimated_minutes

/-- Response disposal of the modular `get_performance` handler
(`src/tools/reports.ts` lines 30–56): it special-cases
`response.data_not_ready` before the generic error branch. -/
def reports_get_performance (r : ApiResponse α) : PerfOutcome α :=
  if jsTruthyBool r.data_not_ready then .notReady (dataNotReadyText r)
  else if r.success then
    match r.data with
    | some d => .report d
    | none => .errorText ("Error: " ++ r.error.getD "Failed to fetch performance data")
  else .errorText ("Error: " ++ r.error.getD "Failed to fetch performance data")

/-! ## Tool Dispatch Layer (index.ts, `CallToolRequestSchema` handler) -/

/-- One content item of a tool result. -/
structure ToolContent where
  type : String
  text : String
deriving Repr, DecidableEq

/-- The result shape every branch of the dispatch handler returns:
`{ content: [{ type: 'text', text }] }`-style content. -/
structure ToolResult where
  content : List ToolContent
deriving Repr, DecidableEq

/-- The result is well formed text content: non-empty, and every item is
of type `text`. -/
def textOnlyResult (r : ToolResult) : Bool :=
  ¬ r.content.isEmpty && r.content.all (fun c => c.type == "text")

/-- A single-text result. -/
def textResult (t : String) : ToolResult :=
  ⟨[⟨"text", t⟩]⟩

/-- The catch-all at the dispatch boundary (index.ts lines 1034–1037):
a thrown error (modelled as its message string) is converted to an
`Error:`-prefixed text result; a normal return passes through. -/
def catchToolErrors (body : Except String ToolResult) : ToolResult :=
  match body with
  | .ok r => r
  | .error msg => textResult ("Error: " ++ msg)

/-- The seventeen tool names registered in the `tools` array, which are
exactly the cases of the dispatch `switch` (index.ts lines 229–568 and
580–1030). -/
def toolNames : List String :=
  ["list_profiles", "get_profile", "list_campaigns", "get_campaign",
   "update_campaign_status", "update_campaign_budget", "search_campaigns",
   "list_keywords", "update_keyword_bid", "update_keyword_status",
   "get_performance", "get_campaign_performance", "list_mcp_profiles",
   "activate_mcp_profile", "check_mcp_status", "deactivate_mcp_profile",
   "set_current_profile"]

/-- Externally visible side effects of handling one tool call: the
backend endpoints called and whether the Working Context was written. -/
structure Effects where
  apiCalls : List String
  wroteContext : Bool
deriving Repr, DecidableEq

/-- No backend call, no context write. -/
def noEffects : Effects := ⟨[], false⟩

/-- The dispatch handler for one tool invocation.  A name matching one
of the registered `switch` cases runs that case's handler — supplied
here as `handlers`, a map from name and arguments to a possibly-throwing
result together with the effects performed — wrapped in the boundary
catch; any other name takes the `default` branch (index.ts lines
1031–1032), which returns the `Unknown tool` text without touching the
backend or the store. -/
def callToolRequestHandler (name : String) (args : List (String × Json))
    (handlers : String → List (String × Json) → Except String ToolResult × Effects) :
    ToolResult × Effects :=
  if toolNames.contains name then
    let h := handlers name args
    (catchToolErrors h.1, h.2)
  else (textResult ("Unknown tool: " ++ name), noEffects)

/-! ## Result classification -/

/-- `pre` is a prefix of `s` (on the character lists). -/
def textStarts (pre s : String) : Bool :=
  pre.data.isPrefixOf s.data

/-- Error-classified text, as produced by every error return of the
dispatch handlers. -/
def isErrorClassified (s : String) : Bool :=
  textStarts "Error:" s

/-- Warning-classified text, as produced by the still-importing branch
of `set_current_profile`. -/
def isWarningClassified (s : String) : Bool :=
  textStarts "Warning:" s

/-- Success-classified text of `set_current_profile`. -/
def isSuccessClassified (s : String) : Bool :=
  textStarts "✓" s

/-! ## Helper lemmas -/

/-- Removing the first `'#'` from a list without one is the identity. -/
theorem removeFirstHashList_of_not_mem :
    ∀ cs : List Char, '#' ∉ cs → removeFirstHashList cs = cs
  | [], _ => rfl
  | c :: cs, h => by
      have hc : ¬ (c = '#') := fun hh => h (hh ▸ List.mem_cons_self c cs)
      have ht : '#' ∉ cs := fun hm => h (List.mem_cons_of_mem c hm)
      simp only [removeFirstHashList, if_neg hc,
        removeFirstHashList_of_not_mem cs ht]

/-- `replace('#','')` on a string without `'#'` is the identity. -/
theorem jsReplaceFirstHash_of_no_hash (s : String) (h : '#' ∉ s.data) :
    jsReplaceFirstHash s = s := by
  simp [jsReplaceFirstHash, removeFirstHashList_of_not_mem s.data h]

/-- `replace('#','')` strips a leading `'#'`. -/
theorem jsReplaceFirstHash_hash_append (s : String) :
    jsReplaceFirstHash ("#" ++ s) = s := by
  have h : ("#" ++ s).data = '#' :: s.data := by
    rw [String.data_append]; rfl
  simp [jsReplaceFirstHash, h, removeFirstHashList]

/-- A prefix of the left part is a prefix of an appended string. -/
theorem textStarts_of_append (pre lit rest : String)
    (h : textStarts pre lit = true) : textStarts pre (lit ++ rest) = true := by
  simp only [textStarts, String.data_append]
  simp only [textStarts, List.isPrefixOf_iff_prefix] at h ⊢
  exact h.trans (List.prefix_append lit.data rest.data)

/-- A head mismatch within the left part refutes the prefix test on an
appended string. -/
theorem textStarts_false_of_head_ne (pre lit rest : String) (a b : Char)
    (pa pb : List Char) (hpre : pre.data = a :: pa) (hlit : lit.data = b :: pb)
    (hab : (a == b) = false) : textStarts pre (lit ++ rest) = false := by
  simp [textStarts, String.data_append, hpre, hlit, List.isPrefixOf, hab]

/-! ## Concrete example data -/

/-- A successful listing fetch wrapping `d`. -/
def okListing (d : McpProfilesResponse) : ApiResponse McpProfilesResponse :=
  { success := true, data := some d }

/-- A profile that has never been activated (ordinal 1, id `a1`). -/
def profileA1 : McpProfile :=
  { number := 1, id := "a1", name := "Alpha", region := "US",
    mcp_activated := false }

/-- A listing holding only `profileA1`. -/
def listingA : McpProfilesResponse := ⟨[profileA1], 1⟩

/-- An activated profile whose import is still running (ordinal 2,
id `b2`, `mcp_data_status = importing`). -/
def profileB2importing : McpProfile :=
  { number := 2, id := "b2", name := "Beta", region := "US",
    mcp_activated := true, mcp_data_status := some "importing",
    is_ready := false, estimated_minutes := some 12 }

/-- A listing holding only `profileB2importing`. -/
def listingB : McpProfilesResponse := ⟨[profileB2importing], 1⟩

/-- The listing of end-to-end scenario 1 of the specification. -/
def scenarioListing : McpProfilesResponse :=
  ⟨[profileA1,
    { number := 2, id := "b2", name := "Beta", region := "US",
      mcp_activated := true, mcp_data_status := some "ready",
      is_ready := true }], 2⟩

/-- A dispatch environment whose two listing fetches both succeed with
`d`. -/
def envOf (d : McpProfilesResponse) : SetProfileEnv :=
  ⟨okListing d, okListing d, "2026-01-06T09:00:00.000Z"⟩

/-! ## C4 -/

/-- C4: `set_current_profile` on a profile whose `mcp_activated` flag is
false returns the not-activated error text — an error-classified result —
performs no context write, and leaves the store at its prior value. -/
theorem set_current_profile_not_activated (input : String) (env : SetProfileEnv)
    (s₀ : StoreState) (res : ResolvedProfile) (d : McpProfilesResponse)
    (p : McpProfile)
    (hres : resolveProfileId (.str input) env.resolveFetch = some res)
    (hsucc : env.listFetch.success = true)
    (hdata : env.listFetch.data = some d)
    (hfind : d.profiles.find? (fun q => q.id == res.id) = some p)
    (hact : p.mcp_activated = false) :
    (set_current_profile input env s₀).text = notActivatedText p ∧
    isErrorClassified (set_current_profile input env s₀).text = true ∧
    (set_current_profile input env s₀).wrote = false ∧
    (set_current_profile input env s₀).store = s₀ := by
  have herr : isErrorClassified (notActivatedText p) = true := by
    apply textStarts_of_append
    decide
  simp [set_current_profile, hres, hsucc, hdata, hfind, hact, herr]

/-- Witness for C4: the not-activated profile `a1`, selected by its
ordinal, is refused with an error and the (empty) store is untouched. -/
theorem set_current_profile_not_activated_witness :
    (set_current_profile "1" (envOf listingA) .missing).text = notActivatedText profileA1 ∧
    isErrorClassified (set_current_profile "1" (envOf listingA) .missing).text = true ∧
    (set_current_profile "1" (envOf listingA) .missing).wrote = false ∧
    (set_current_profile "1" (envOf listingA) .missing).store = .missing :=
  set_current_profile_not_activated "1" (envOf listingA) .missing
    ⟨"a1", "Alpha", "US"⟩ listingA profileA1
    (by decide) (by decide) (by decide) (by decide) (by decide)

/-! ## C6 -/

/-- C6: writing a context record to the store and immediately reading it
back yields exactly the written record: the read returns the persisted
representation, and decoding it recovers every field (`profileId`,
`profileNumber`, `profileName`, `region`, `setAt`). -/
theorem context_write_read_roundtrip (c : ProfileContext) (s₀ : StoreState) :
    readContext (writeContext c s₀) = some (encodeContext c) ∧
    decodeContext (encodeContext c) = some c :=
  ⟨rfl, rfl⟩

/-! ## C7 -/

/-- C7: `readContext` never propagates a failure of its body — whenever
the body throws, the catch turns the result into the unset value — and in
particular a missing store and a corrupt store both read as unset, while
stored content is returned. -/
theorem readContext_never_raises :
    (∀ s : StoreState, (readContextBody s).isOk = false → readContext s = none) ∧
    readContext .missing = none ∧
    readContext .corrupt = none ∧
    ∀ j : Json, readContext (.stored j) = some j := by
  refine ⟨?_, rfl, rfl, fun j => rfl⟩
  intro s h
  cases s with
  | missing => rfl
  | corrupt => rfl
  | stored j => simp [readContextBody, Except.isOk, Except.toBool] at h

/-- Witness for C7: the corrupt store, whose body throws, reads as
unset. -/
theorem readContext_never_raises_witness :
    readContext .corrupt = none :=
  readContext_never_raises.1 .corrupt (by rfl)

/-! ## C1 -/

/-- C1 counterexample: profile `b2` satisfies the claim's hypothesis
(`mcp_activated = true`, `mcp_data_status ≠ ready`), and
`set_current_profile` on it does return a warning-classified result, but
it performs **no** context write: the handler returns from the warning
branch before `writeContext` is reached and the store keeps its prior
(empty) value, contrary to the claim that the context is still written. -/
theorem set_current_profile_warning_writes_nothing :
    profileB2importing.mcp_activated = true ∧
    profileB2importing.mcp_data_status ≠ some "ready" ∧
    isWarningClassified (set_current_profile "2" (envOf listingB) .missing).text = true ∧
    (set_current_profile "2" (envOf listingB) .missing).wrote = false ∧
    (set_current_profile "2" (envOf listingB) .missing).store = .missing :=
  ⟨rfl, by decide, by decide, rfl, rfl⟩

/-- C1 (amended): `set_current_profile` on a profile with
`mcp_activated = true` and `mcp_data_status ≠ ready` returns the
still-importing warning text — warning-classified and distinguishable
from the success case — but aborts before the write: `writeContext` is
not invoked and the store keeps its prior value. -/
theorem set_current_profile_importing_warns_without_write (input : String)
    (env : SetProfileEnv) (s₀ : StoreState) (res : ResolvedProfile)
    (d : McpProfilesResponse) (p : McpProfile)
    (hres : resolveProfileId (.str input) env.resolveFetch = some res)
    (hsucc : env.listFetch.success = true)
    (hdata : env.listFetch.data = some d)
    (hfind : d.profiles.find? (fun q => q.id == res.id) = some p)
    (hact : p.mcp_activated = true)
    (hnr : p.mcp_data_status ≠ some "ready") :
    (set_current_profile input env s₀).text = stillImportingText p ∧
    isWarningClassified (set_current_profile input env s₀).text = true ∧
    isSuccessClassified (set_current_profile input env s₀).text = false ∧
    (set_current_profile input env s₀).wrote = false ∧
    (set_current_profile input env s₀).store = s₀ := by
  have hwarn : isWarningClassified (stillImportingText p) = true := by
    apply textStarts_of_append
    decide
  have hnotsucc : isSuccessClassified (stillImportingText p) = false := by
    exact textStarts_false_of_head_ne "✓" "Warning: Profile **" _ '✓' 'W'
      [] ("arning: Profile **".data) (by decide) (by decide) (by decide)
  simp [set_current_profile, hres, hsucc, hdata, hfind, hact, hnr, hwarn, hnotsucc]

/-- Witness for the amended C1: selecting the importing profile `b2`
warns and leaves the store empty. -/
theorem set_current_profile_importing_warns_without_write_witness :
    (set_current_profile "2" (envOf listingB) .missing).text = stillImportingText profileB2importing ∧
    isWarningClassified (set_current_profile "2" (envOf listingB) .missing).text = true ∧
    isSuccessClassified (set_current_profile "2" (envOf listingB) .missing).text = false ∧
    (set_current_profile "2" (envOf listingB) .missing).wrote = false ∧
    (set_current_profile "2" (envOf listingB) .missing).store = .missing :=
  set_current_profile_importing_warns_without_write "2" (envOf listingB) .missing
    ⟨"b2", "Beta", "US"⟩ listingB profileB2importing
    (by decide) (by decide) (by decide) (by decide) (by decide) (by decide)

/-! ## C2 -/

/-- C2 counterexample: with a freshly fetched listing whose only ordinal
is 1, resolving the integer reference `"#5"` does **not** return the
no-resolution result: the resolver falls through to the
treat-as-hash branch and returns the raw input string as an identifier,
contrary to the claim that it never returns an identifier in that case. -/
theorem resolver_absent_ordinal_returns_identifier :
    (listingA.profiles.all (fun p => p.number != 5)) = true ∧
    resolveProfileId (.str "#5") (okListing listingA) = some ⟨"#5", "", ""⟩ ∧
    resolveProfileId (.str "#5") (okListing listingA) ≠ none :=
  ⟨by decide, by decide, by decide⟩

/-- C2 (amended): for an integer reference whose value is absent from a
successfully fetched listing, the resolver does not return the
no-resolution result; it falls through to the treat-as-hash branch and
returns the stringified original input as the identifier with empty
display metadata.  (No resolution is returned only when the listing
fetch fails.) -/
theorem resolver_absent_ordinal_falls_through (input : ProfileRef) (n : Int)
    (fetch : ApiResponse McpProfilesResponse) (d : McpProfilesResponse)
    (hn : refToNum input = some n)
    (hs : fetch.success = true)
    (hd : fetch.data = some d)
    (hfind : d.profiles.find? (fun p => p.number == n) = none) :
    resolveProfileId input fetch = some ⟨refToString input, "", ""⟩ := by
  simp [resolveProfileId, hn, hs, hd, hfind]

/-- Witness for the amended C2: resolving `"#5"` against the
one-profile listing yields the identifier `"#5"`. -/
theorem resolver_absent_ordinal_falls_through_witness :
    resolveProfileId (.str "#5") (okListing listingA) = some ⟨"#5", "", ""⟩ :=
  resolver_absent_ordinal_falls_through (.str "#5") 5 (okListing listingA) listingA
    (by decide) (by decide) (by decide) (by decide)

/-! ## C5 -/

/-- C5: for an ordinal `n` present in the fetched listing, resolving the
numeric reference `n`, a bare numeric string for `n`, and the same
string prefixed with `'#'` all yield the same result: the identifier
(and display metadata) of the listing's first profile whose `number`
field equals `n` — and that profile's `number` is indeed `n`. -/
theorem resolver_ordinal_and_hash_agree (n : Int) (s : String)
    (fetch : ApiResponse McpProfilesResponse) (d : McpProfilesResponse)
    (p : McpProfile)
    (hs : fetch.success = true)
    (hd : fetch.data = some d)
    (hparse : jsParseInt s = some n)
    (hnohash : '#' ∉ s.data)
    (hfind : d.profiles.find? (fun q => q.number == n) = some p) :
    resolveProfileId (.num n) fetch = some ⟨p.id, p.name, p.region⟩ ∧
    resolveProfileId (.str s) fetch = some ⟨p.id, p.name, p.region⟩ ∧
    resolveProfileId (.str ("#" ++ s)) fetch = some ⟨p.id, p.name, p.region⟩ ∧
    p.number = n := by
  have h1 : refToNum (.num n) = some n := rfl
  have h2 : refToNum (.str s) = some n := by
    simp [refToNum, jsReplaceFirstHash_of_no_hash s hnohash, hparse]
  have h3 : refToNum (.str ("#" ++ s)) = some n := by
    simp [refToNum, jsReplaceFirstHash_hash_append, hparse]
  have hnum : p.number = n := by
    have := List.find?_some hfind
    simpa using this
  exact ⟨by simp [resolveProfileId, h1, hs, hd, hfind],
         by simp [resolveProfileId, h2, hs, hd, hfind],
         by simp [resolveProfileId, h3, hs, hd, hfind],
         hnum⟩

/-- Witness for C5: ordinal 2 of the importing listing resolves — as
`2`, `"2"` and `"#2"` alike — to profile `b2`'s triple. -/
theorem resolver_ordinal_and_hash_agree_witness :
    resolveProfileId (.num 2) (okListing listingB) = some ⟨"b2", "Beta", "US"⟩ ∧
    resolveProfileId (.str "2") (okListing listingB) = some ⟨"b2", "Beta", "US"⟩ ∧
    resolveProfileId (.str ("#" ++ "2")) (okListing listingB) = some ⟨"b2", "Beta", "US"⟩ ∧
    profileB2importing.number = 2 :=
  resolver_ordinal_and_hash_agree 2 "2" (okListing listingB) listingB
    profileB2importing (by decide) (by decide) (by decide) (by decide) (by decide)

/-! ## C3 -/

/-- The `/v1/amazon/reports/performance` payload, opaque to the branch
logic under verification (the report rendering that consumes it is
floating-point text formatting). -/
structure PerformanceResponse where
  campaigns : List Json
  count : Int

/-- The distinguished "data not ready" backend response shape
`\x7b data_not_ready: true, message, estimated_minutes \x7d`, carrying an
estimate of 5 minutes. -/
def notReadyPerfResponse : ApiResponse PerformanceResponse :=
  { success := true, data := none,
    message := some "Data import in progress",
    data_not_ready := some true, estimated_minutes := some 5 }

/-- C3 (failing-input evaluation): on the distinguished not-ready shape,
the monolithic `get_performance` and `get_campaign_performance` handlers
return the generic error text — they never consult `data_not_ready` —
while the modular reports-module handler renders the dedicated
not-ready text carrying the supplied 5-minute estimate.  This refutes
the claim that the shape is never rendered as a generic error. -/
theorem perf_not_ready_rendered_as_generic_error :
    mono_get_performance notReadyPerfResponse =
      .errorText "Error: Failed to fetch performance" ∧
    mono_get_campaign_performance notReadyPerfResponse =
      .errorText "Error: Failed to fetch campaign performance" ∧
    reports_get_performance notReadyPerfResponse =
      .notReady "**Data Not Yet Available**\n\nData import in progress\n\nEstimated time: ~5 minutes." :=
  ⟨rfl, rfl, rfl⟩

/-! ## C8 -/

/-- C8: `activate_mcp_profile` performs no activation-state pre-check:
whenever the ordinal resolves (to the listing's first profile with that
`number`, whatever its `mcp_activated` flag), the handler forwards
exactly that profile's identifier as the `profile_id` of the POST to the
activate endpoint, and surfaces the backend's response — the error
string verbatim on failure, the success rendering of the payload
otherwise. -/
theorem activate_forwards_id_without_precheck (n : Int)
    (listFetch : ApiResponse McpProfilesResponse) (d : McpProfilesResponse)
    (p : McpProfile) (backend : String → ApiResponse McpActivateResponse)
    (hs : listFetch.success = true)
    (hd : listFetch.data = some d)
    (hfind : d.profiles.find? (fun q => q.number == n) = some p) :
    (activate_mcp_profile n listFetch backend).forwarded = some p.id ∧
    ((backend p.id).success = true →
      (activate_mcp_profile n listFetch backend).text = activatedText p (backend p.id)) ∧
    ((backend p.id).success = false →
      (activate_mcp_profile n listFetch backend).text =
        "Error: " ++ ((backend p.id).error.getD "Failed to activate profile")) := by
  refine ⟨?_, ?_, ?_⟩
  · simp only [activate_mcp_profile, hs, hd, hfind, if_true]
    cases hb : (backend p.id).success <;> simp [hb]
  · intro hb
    simp [activate_mcp_profile, hs, hd, hfind, hb]
  · intro hb
    simp [activate_mcp_profile, hs, hd, hfind, hb]

/-- Witness for C8 (end-to-end scenario 1): calling activate on
ordinal 1 of the scenario listing forwards `profile_id = "a1"`, even
though that profile is not activated. -/
theorem activate_forwards_id_without_precheck_witness :
    profileA1.mcp_activated = false ∧
    (activate_mcp_profile 1 (okListing scenarioListing)
      (fun pid => { success := true, data := some ⟨pid, "pending", some 10⟩ })).forwarded =
      some "a1" :=
  ⟨rfl,
    (activate_forwards_id_without_precheck 1 (okListing scenarioListing)
      scenarioListing profileA1
      (fun pid => { success := true, data := some ⟨pid, "pending", some 10⟩ })
      (by decide) (by decide) (by decide)).1⟩

/-! ## C9 -/

/-- C9: the dispatch boundary never lets an exception propagate: as long
as every normal handler return is well-formed text content, the caught
result is well-formed text content too, and a thrown error (of any
message) is converted into the `Error:`-prefixed text result. -/
theorem dispatch_converts_every_throw (body : Except String ToolResult)
    (hok : ∀ t, body = .ok t → textOnlyResult t = true) :
    textOnlyResult (catchToolErrors body) = true ∧
    ∀ m, body = .error m → catchToolErrors body = textResult ("Error: " ++ m) := by
  cases body with
  | ok t =>
      refine ⟨hok t rfl, ?_⟩
      intro m h
      cases h
  | error m =>
      refine ⟨by simp [catchToolErrors, textResult, textOnlyResult], ?_⟩
      intro m' h
      cases h
      rfl

/-- Witness for C9: a thrown `boom` is converted to a well-formed
error-text result. -/
theorem dispatch_converts_every_throw_witness :
    textOnlyResult (catchToolErrors (.error "boom")) = true :=
  (dispatch_converts_every_throw (.error "boom") (fun _ h => nomatch h)).1

/-! ## C10 -/

/-- C10: an invocation whose name is not among the registered tool names
takes the dispatch `default` branch: it returns the successful
`Unknown tool: <name>` text result — which is not error-classified — and
performs no backend call and no Working-Context write. -/
theorem unknown_tool_default_branch (name : String) (args : List (String × Json))
    (handlers : String → List (String × Json) → Except String ToolResult × Effects)
    (hname : toolNames.contains name = false) :
    callToolRequestHandler name args handlers =
      (textResult ("Unknown tool: " ++ name), noEffects) ∧
    isErrorClassified ("Unknown tool: " ++ name) = false ∧
    (callToolRequestHandler name args handlers).2.apiCalls = [] ∧
    (callToolRequestHandler name args handlers).2.wroteContext = false := by
  have hne : isErrorClassified ("Unknown tool: " ++ name) = false := by
    exact textStarts_false_of_head_ne "Error:" "Unknown tool: " name 'E' 'U'
      ("rror:".data) ("nknown tool: ".data) (by decide) (by decide) (by decide)
  have hmem : name ∉ toolNames := by simpa using hname
  refine ⟨?_, hne, ?_, ?_⟩ <;> simp [callToolRequestHandler, hname, hmem, noEffects]

/-- Witness for C10: the unregistered name `frobnicate` yields the
unknown-tool text with no effects, whatever the per-tool handlers do. -/
theorem unknown_tool_default_branch_witness :
    callToolRequestHandler "frobnicate" []
      (fun _ _ => (.ok (textResult "ok"), noEffects)) =
      (textResult ("Unknown tool: " ++ "frobnicate"), noEffects) :=
  (unknown_tool_default_branch "frobnicate" []
    (fun _ _ => (.ok (textResult "ok"), noEffects)) (by decide)).1

end PPCProphet
